import Mathlib

/-!
# Verification of the xray-agent user-provisioning reconciliation engine

Shallow embedding of the agent's core: config store (`xray_manager.py`),
user registry (`user_cache.py`), live-apply functions (`xray_api.py`) and
the command handler (`api/agent.py`).  External effects (the gRPC channel,
the reload subprocess, the out-of-process validator, the file system and
the clock) are modelled as oracle fields of an environment record; each
embedded function threads a `World` and emits a trace of observable events.
-/

namespace XrayAgent

/-- One entry of `settings.clients` of an inbound: `id`, optional `email`
(label) and optional `flow`. -/
structure Client where
  id : String
  email : Option String
  flow : Option String
deriving DecidableEq, Repr

/-- An inbound descriptor.  Only the fields the embedded code reads are
kept: `protocol`, the optional `tag`, the client list
(`settings.clients`) and the anti-replay tolerance
(`streamSettings.realitySettings.maxTimeDiff`, `none` when the path is
absent). -/
structure Inbound where
  protocol : String
  tag : Option String
  clients : List Client
  maxTimeDiff : Option Int
deriving DecidableEq, Repr

/-- The persisted configuration: its `inbounds` list. -/
structure Config where
  inbounds : List Inbound
deriving DecidableEq, Repr

/-- State of the config file on disk: absent, present but unparseable
(a `json.load` failure), or present with parsed content `c`. -/
inductive FileState where
  | absent
  | invalid
  | valid (c : Config)
deriving DecidableEq, Repr

/-- The in-memory `UserCache` state: the id set (as a duplicate-free-enough
list, membership is all the code uses), `_last_sync` and
`_last_xray_reload` as second-resolution timestamps. -/
structure UserCache where
  users : List String
  lastSync : Option Nat
  lastXrayReload : Option Nat
deriving DecidableEq, Repr

/-- Oracle outcomes of all external effects, plus the clock.  Each field
fixes what the corresponding external call would answer. -/
structure Env where
  grpcAvailable : Bool
  grpcAddOk : Bool
  grpcRemoveOk : Bool
  reloadOk : Bool
  validateMechanism : Bool
  validateOk : Bool
  saveIoOk : Bool
  realityShortIds : List String
  now : Nat
deriving DecidableEq, Repr

/-- The whole mutable world: config file, cache, environment. -/
structure World where
  file : FileState
  cache : UserCache
  env : Env
deriving DecidableEq, Repr

/-- Observable events emitted while running an operation. -/
inductive Ev where
  | load
  | saveEv (c : Config)
  | cAdd (u : String)
  | cRemove (u : String)
  | cSync
  | reload (ok : Bool)
  | grpcAdd (ok : Bool)
  | grpcRemove (ok : Bool)
deriving DecidableEq, Repr

/-- Result of an embedded fallible function: a python return value or a
propagating exception, the final world, and the event trace. -/
structure Out (α : Type) where
  res : Except String α
  w : World
  tr : List Ev
deriving Repr

/-- First inbound whose `protocol` is `"vless"` (the lookup loop shared by
all operations). -/
def findVless (c : Config) : Option Inbound :=
  c.inbounds.find? (fun i => i.protocol == "vless")

/-- Replace the client list of the first vless inbound (the in-place dict
mutation `vless_inbound["settings"]["clients"] = clients`). -/
def setVlessInbounds (cs : List Client) : List Inbound → List Inbound
  | [] => []
  | i :: rest =>
    if i.protocol == "vless" then { i with clients := cs } :: rest
    else i :: setVlessInbounds cs rest

/-- Config after replacing the first vless inbound's clients. -/
def setVlessClients (c : Config) (cs : List Client) : Config :=
  { inbounds := setVlessInbounds cs c.inbounds }

/-- The migration trigger of `load_xray_config`: a vless inbound whose
`maxTimeDiff` is one of the obsolete values 0, 30, 300. -/
def migrTrigger (i : Inbound) : Bool :=
  i.protocol == "vless" &&
    (i.maxTimeDiff == some 0 || i.maxTimeDiff == some 30 || i.maxTimeDiff == some 300)

/-- The migration loop of `load_xray_config` lines 33-45: rewrite the first
triggering vless inbound's `maxTimeDiff` to 10; `none` when no inbound
triggers. -/
def migrInbounds : List Inbound → Option (List Inbound)
  | [] => none
  | i :: rest =>
    if migrTrigger i then some ({ i with maxTimeDiff := some 10 } :: rest)
    else
      match migrInbounds rest with
      | some rest2 => some (i :: rest2)
      | none => none

/-- `True` when no inbound triggers the migration (steady-state config). -/
def noMigr (c : Config) : Bool :=
  c.inbounds.all (fun i => !migrTrigger i)

/-- `validate_xray_config` collapsed to its decision: it reports invalid
only when the validation mechanism (container + copy) is reachable and the
dry-run test fails; an unavailable mechanism yields valid-with-warning. -/
def validate_xray_config (e : Env) : Bool :=
  !(e.validateMechanism && !e.validateOk)

/-- `save_xray_config`: validate (raising `ValueError` on a negative
validation), then write the file in place (an `IOError` when the write
fails). -/
def save_xray_config (c : Config) (w : World) : Out Unit :=
  if w.env.validateMechanism && !w.env.validateOk then
    ⟨.error "ValueError: Invalid XRay configuration", w, []⟩
  else if w.env.saveIoOk then
    ⟨.ok (), { w with file := .valid c }, [.saveEv c]⟩
  else
    ⟨.error "IOError", w, []⟩

/-- `reload_xray`: runs the reload command, catching every exception; the
boolean is the command's success.  The event records that a reload command
was issued. -/
def reload_xray (w : World) : Bool × World × List Ev :=
  (w.env.reloadOk, w, [.reload w.env.reloadOk])

/-- `get_default_config`: the synthesized default, preserving the vless
clients of a readable existing file (lines 227-243; the reality-key
handling is outside the modelled state). -/
def get_default_config (w : World) : Config :=
  let existing : List Client :=
    match w.file with
    | .valid c =>
      match findVless c with
      | some i => i.clients
      | none => []
    | _ => []
  { inbounds :=
      [ { protocol := "vless", tag := some "vless", clients := existing,
          maxTimeDiff := some 10 },
        { protocol := "dokodemo-door", tag := some "api", clients := [],
          maxTimeDiff := none } ] }

/-- `load_xray_config`: default when the file is absent, a propagating
`json.JSONDecodeError` when unparseable, otherwise the parsed content
after the lazily-applied `maxTimeDiff` migration (whose save/reload
failures are caught). -/
def load_xray_config (w : World) : Out Config :=
  match w.file with
  | .absent => ⟨.ok (get_default_config w), w, [.load]⟩
  | .invalid => ⟨.error "JSONDecodeError", w, [.load]⟩
  | .valid c =>
    match migrInbounds c.inbounds with
    | none => ⟨.ok c, w, [.load]⟩
    | some inbs =>
      let c2 : Config := { inbounds := inbs }
      let o := save_xray_config c2 w
      match o.res with
      | .ok _ =>
        let (_, w2, tr2) := reload_xray o.w
        ⟨.ok c2, w2, [.load] ++ o.tr ++ tr2⟩
      | .error _ => ⟨.ok c2, o.w, [.load] ++ o.tr⟩

/-- Set-insert into the cache's id list (`set.add`). -/
def insertUser (u : String) (us : List String) : List String :=
  if us.contains u then us else us ++ [u]

/-- `UserCache.add`. -/
def cacheAdd (u : String) (w : World) : World × List Ev :=
  ({ w with cache := { w.cache with users := insertUser u w.cache.users } },
   [.cAdd u])

/-- `UserCache.remove` (`set.discard`). -/
def cacheRemove (u : String) (w : World) : World × List Ev :=
  ({ w with cache := { w.cache with users := w.cache.users.filter (fun v => v != u) } },
   [.cRemove u])

/-- The ids `sync_from_config` collects: every truthy client `id` of every
vless inbound (the loop has no break). -/
def syncIds (c : Config) : List String :=
  ((c.inbounds.filter (fun i => i.protocol == "vless")).flatMap
      (fun i => i.clients.map (fun cl => cl.id))).filter (fun u => u != "")

/-- `UserCache.sync_from_config`: rebuild the id set from the loaded
config, stamping `_last_sync`; any exception (including a load failure)
is caught and leaves the cache untouched. -/
def sync_from_config (w : World) : World × List Ev :=
  let o := load_xray_config w
  match o.res with
  | .ok c =>
    ({ o.w with cache :=
        { o.w.cache with users := syncIds c, lastSync := some w.env.now } },
     o.tr ++ [.cSync])
  | .error _ => (o.w, o.tr)

/-- The cache's sync interval: 5 minutes, in seconds. -/
def syncIntervalSecs : Nat := 300

/-- `UserCache._maybe_sync`: sync on first use or when the last sync is at
least the sync interval old. -/
def maybe_sync (w : World) : World × List Ev :=
  match w.cache.lastSync with
  | none => sync_from_config w
  | some t =>
    if w.env.now - t ≥ syncIntervalSecs then sync_from_config w else (w, [])

/-- `UserCache.exists`: optional maybe-sync, then membership. -/
def cache_exists (u : String) (checkSync : Bool) (w : World) :
    Bool × World × List Ev :=
  if checkSync then
    let (w2, tr) := maybe_sync w
    (w2.cache.users.contains u, w2, tr)
  else (w.cache.users.contains u, w, [])

/-- Whether any vless inbound's client list contains id `u` (the nested
scan of `should_reload_xray` lines 125-134). -/
def configHasUser (c : Config) (u : String) : Bool :=
  c.inbounds.any (fun i =>
    i.protocol == "vless" && i.clients.any (fun cl => cl.id == u))

/-- Tail of `should_reload_xray` after the reload-suppression check: the
fresh-cache check, then a direct config inspection (load failures caught,
yielding `false`). -/
def shouldReloadCont (u : String) (w : World) : Bool × World × List Ev :=
  let syncFresh : Bool :=
    match w.cache.lastSync with
    | some t => decide (w.env.now - t < 60)
    | none => false
  if syncFresh && w.cache.users.contains u then (false, w, [])
  else
    let o := load_xray_config w
    match o.res with
    | .error _ => (false, o.w, o.tr)
    | .ok c =>
      if configHasUser c u then
        match o.w.cache.lastXrayReload with
        | none => (true, o.w, o.tr)
        | some t => (decide (w.env.now - t > 300), o.w, o.tr)
      else (false, o.w, o.tr)

/-- `UserCache.should_reload_xray`: suppressed for 5 minutes after a
marked reload, else `shouldReloadCont`. -/
def should_reload_xray (u : String) (w : World) : Bool × World × List Ev :=
  match w.cache.lastXrayReload with
  | some t =>
    if w.env.now - t < 300 then (false, w, []) else shouldReloadCont u w
  | none => shouldReloadCont u w

/-- `email or f"user-{uuid[:8]}"`: the default label; an empty string is
falsy in python, so it also falls back. -/
def emailToUse (email : Option String) (u : String) : String :=
  match email with
  | some e => if e == "" then "user-" ++ u.take 8 else e
  | none => "user-" ++ u.take 8

/-- Whether some client of `cs` already carries id `u`. -/
def clientIdsHave (cs : List Client) (u : String) : Bool :=
  cs.any (fun cl => cl.id == u)

/-- The duplicate-label filter of the add paths: drop clients with the
same email but a different id. -/
def dropConflicting (cs : List Client) (em : String) (u : String) : List Client :=
  cs.filter (fun cl => !(cl.email == some em && cl.id != u))

/-- The client entry appended by `add_user_via_api` /
`regenerate_user_via_api`. -/
def mkNewClient (u em : String) : Client :=
  { id := u, email := some em, flow := some "xtls-rprx-vision" }

/-- `update_inbound_via_api`: a full inbound update is not supported over
the API; the function always falls back by returning `False`. -/
def update_inbound_via_api (inbound : Inbound) (tag : String) : Bool :=
  false

/-- The shared tail of `add_user_via_api`: persist the merged config, then
update the cache (the fallback-to-SIGHUP return `(True, False)`). -/
def fallbackAdd (u : String) (c2 : Config) (w : World) : Out (Bool × Bool) :=
  let o := save_xray_config c2 w
  match o.res with
  | .error e => ⟨.error e, o.w, o.tr⟩
  | .ok _ =>
    let (w2, tr2) := cacheAdd u o.w
    ⟨.ok (true, false), w2, o.tr ++ tr2⟩

/-- `add_user_via_api`: load, locate the vless inbound, short-circuit on a
present id, merge the deduplicated client list plus the new entry, then
either the gRPC zero-downtime path (save + cache on success) or the
config-update fallback.  Returns `(success, used_grpc)`. -/
def add_user_via_api (u : String) (email : Option String) (w : World) :
    Out (Bool × Bool) :=
  let o := load_xray_config w
  match o.res with
  | .error e => ⟨.error e, o.w, o.tr⟩
  | .ok c =>
    match findVless c with
    | none => ⟨.ok (false, false), o.w, o.tr⟩
    | some vi =>
      if clientIdsHave vi.clients u then ⟨.ok (true, false), o.w, o.tr⟩
      else
        let em := emailToUse email u
        let cs := dropConflicting (dropConflicting vi.clients em u) em u
        let cs := cs ++ [mkNewClient u em]
        let c2 := setVlessClients c cs
        if o.w.env.grpcAvailable then
          if o.w.env.grpcAddOk then
            let o2 := save_xray_config c2 o.w
            match o2.res with
            | .error e => ⟨.error e, o2.w, o.tr ++ [.grpcAdd true] ++ o2.tr⟩
            | .ok _ =>
              let (w3, tr3) := cacheAdd u o2.w
              ⟨.ok (true, true), w3, o.tr ++ [.grpcAdd true] ++ o2.tr ++ tr3⟩
          else
            let ofb := fallbackAdd u c2 o.w
            ⟨ofb.res, ofb.w, o.tr ++ [.grpcAdd false] ++ ofb.tr⟩
        else
          let ofb := fallbackAdd u c2 o.w
          ⟨ofb.res, ofb.w, o.tr ++ ofb.tr⟩

/-- The shared tail of `remove_user_via_api`: drop the id from the client
list, persist, update the cache (the fallback return `(True, False)`). -/
def fallbackRemove (u : String) (c : Config) (vi : Inbound) (w : World) :
    Out (Bool × Bool) :=
  let cs := vi.clients.filter (fun cl => cl.id != u)
  let c2 := setVlessClients c cs
  let o := save_xray_config c2 w
  match o.res with
  | .error e => ⟨.error e, o.w, o.tr⟩
  | .ok _ =>
    let (w2, tr2) := cacheRemove u o.w
    ⟨.ok (true, false), w2, o.tr ++ tr2⟩

/-- `remove_user_via_api`: load, locate the vless inbound, fail with
`(False, False)` when the id is not in the config, else try the gRPC
removal (needs a truthy email) with the config-update fallback. -/
def remove_user_via_api (u : String) (w : World) : Out (Bool × Bool) :=
  let o := load_xray_config w
  match o.res with
  | .error e => ⟨.error e, o.w, o.tr⟩
  | .ok c =>
    match findVless c with
    | none => ⟨.ok (false, false), o.w, o.tr⟩
    | some vi =>
      match vi.clients.find? (fun cl => cl.id == u) with
      | none => ⟨.ok (false, false), o.w, o.tr⟩
      | some cl =>
        let emailTruthy : Bool :=
          match cl.email with
          | some e => e != ""
          | none => false
        if o.w.env.grpcAvailable && emailTruthy then
          if o.w.env.grpcRemoveOk then
            let cs := vi.clients.filter (fun cl2 => cl2.id != u)
            let c2 := setVlessClients c cs
            let o2 := save_xray_config c2 o.w
            match o2.res with
            | .error e => ⟨.error e, o2.w, o.tr ++ [.grpcRemove true] ++ o2.tr⟩
            | .ok _ =>
              let (w3, tr3) := cacheRemove u o2.w
              ⟨.ok (true, true), w3, o.tr ++ [.grpcRemove true] ++ o2.tr ++ tr3⟩
          else
            let ofb := fallbackRemove u c vi o.w
            ⟨ofb.res, ofb.w, o.tr ++ [.grpcRemove false] ++ ofb.tr⟩
        else
          let ofb := fallbackRemove u c vi o.w
          ⟨ofb.res, ofb.w, o.tr ++ ofb.tr⟩

/-- `regenerate_user_via_api`: one load, drop the old id, append the new
entry, then — since `update_inbound_via_api` reports no API support —
persist the merged config and update the cache.  Returns
`(success, short_id)`. -/
def regenerate_user_via_api (oldU newU : String) (email : Option String)
    (w : World) : Out (Bool × Option String) :=
  let o := load_xray_config w
  match o.res with
  | .error e => ⟨.error e, o.w, o.tr⟩
  | .ok c =>
    match findVless c with
    | none => ⟨.ok (false, none), o.w, o.tr⟩
    | some vi =>
      let cs := vi.clients.filter (fun cl => cl.id != oldU)
      let shortId := o.w.env.realityShortIds.head?
      let em := emailToUse email newU
      let cs := cs ++ [mkNewClient newU em]
      let c2 := setVlessClients c cs
      if update_inbound_via_api { vi with clients := cs } (vi.tag.getD "vless") then
        let o2 := save_xray_config c2 o.w
        match o2.res with
        | .error e => ⟨.error e, o2.w, o.tr ++ o2.tr⟩
        | .ok _ =>
          let (w3, tr3) := cacheRemove oldU o2.w
          let (w4, tr4) := cacheAdd newU w3
          ⟨.ok (true, shortId), w4, o.tr ++ o2.tr ++ tr3 ++ tr4⟩
      else
        let o2 := save_xray_config c2 o.w
        match o2.res with
        | .error e => ⟨.error e, o2.w, o.tr ++ o2.tr⟩
        | .ok _ =>
          let (w3, tr3) := cacheRemove oldU o2.w
          let (w4, tr4) := cacheAdd newU w3
          ⟨.ok (true, shortId), w4, o.tr ++ o2.tr ++ tr3 ++ tr4⟩

/-- `remove_user_from_config`: load, locate the vless inbound, `False`
when the id is absent (no write), else persist the filtered list.  The
cache is not touched. -/
def remove_user_from_config (u : String) (w : World) : Out Bool :=
  let o := load_xray_config w
  match o.res with
  | .error e => ⟨.error e, o.w, o.tr⟩
  | .ok c =>
    match findVless c with
    | none => ⟨.ok false, o.w, o.tr⟩
    | some vi =>
      let cs := vi.clients.filter (fun cl => cl.id != u)
      if cs.length == vi.clients.length then ⟨.ok false, o.w, o.tr⟩
      else
        let c2 := setVlessClients c cs
        let o2 := save_xray_config c2 o.w
        match o2.res with
        | .error e => ⟨.error e, o2.w, o.tr ++ o2.tr⟩
        | .ok _ => ⟨.ok true, o2.w, o.tr ++ o2.tr⟩

/-- `regenerate_user_in_config`: the reload-path replace — one load, drop
the old id, append the new entry (no `flow` key here), one save, then the
cache update. -/
def regenerate_user_in_config (oldU newU : String) (email : Option String)
    (w : World) : Out (Bool × Option String) :=
  let o := load_xray_config w
  match o.res with
  | .error e => ⟨.error e, o.w, o.tr⟩
  | .ok c =>
    match findVless c with
    | none => ⟨.ok (false, none), o.w, o.tr⟩
    | some vi =>
      let cs := vi.clients.filter (fun cl => cl.id != oldU)
      let shortId := o.w.env.realityShortIds.head?
      let newCl : Client := { id := newU, email := some (emailToUse email newU), flow := none }
      let cs := cs ++ [newCl]
      let c2 := setVlessClients c cs
      let o2 := save_xray_config c2 o.w
      match o2.res with
      | .error e => ⟨.error e, o2.w, o.tr ++ o2.tr⟩
      | .ok _ =>
        let (w3, tr3) := cacheRemove oldU o2.w
        let (w4, tr4) := cacheAdd newU w3
        ⟨.ok (true, shortId), w4, o.tr ++ o2.tr ++ tr3 ++ tr4⟩

/-- How `receive_command` terminates: a normal response, an
`HTTPException` it raised deliberately, or a low-level exception that
escaped the handler uncaught (the framework turns it into a 500). -/
inductive AgentErr where
  | http (code : Nat) (detail : String)
  | uncaught (msg : String)
deriving DecidableEq, Repr

/-- The handler's success response body: `success` and the optional
`short_id`. -/
structure CmdResp where
  success : Bool
  shortId : Option String
deriving DecidableEq, Repr

/-- Result of one handler invocation. -/
structure HOut where
  res : Except AgentErr CmdResp
  w : World
  tr : List Ev
deriving Repr

/-- The common tail of the handler's `add_user` branch (agent.py lines
151-175): fetch the short id; with gRPC used, done; otherwise reload only
when the id is still missing from the cache (`check_sync=False`), and turn
a failed reload into a failed command. -/
def add_user_after (u : String) (succ usedGrpc : Bool) (w : World)
    (tr : List Ev) : HOut :=
  if succ then
    let shortId := w.env.realityShortIds.head?
    if usedGrpc then ⟨.ok ⟨true, shortId⟩, w, tr⟩
    else
      let (inCache2, w2, tr2) := cache_exists u false w
      if !inCache2 then
        let (rOk, w3, tr3) := reload_xray w2
        if rOk then ⟨.ok ⟨true, shortId⟩, w3, tr ++ tr2 ++ tr3⟩
        else
          ⟨.error (.http 400 "Failed to execute command: add_user"), w3,
           tr ++ tr2 ++ tr3⟩
      else ⟨.ok ⟨true, shortId⟩, w2, tr ++ tr2⟩
  else ⟨.error (.http 400 "Failed to execute command: add_user"), w, tr⟩

/-- The handler's `add_user` branch (after UUID validation): cache
short-circuit with `success=True, used_grpc=False`, else
`add_user_via_api`, then the common tail. -/
def add_user_command (u : String) (email : Option String) (w : World) : HOut :=
  let (inCache, w1, tr1) := cache_exists u true w
  if inCache then add_user_after u true false w1 tr1
  else
    let o := add_user_via_api u email w1
    match o.res with
    | .error e => ⟨.error (.uncaught e), o.w, tr1 ++ o.tr⟩
    | .ok (succ, usedGrpc) => add_user_after u succ usedGrpc o.w (tr1 ++ o.tr)

/-- The handler's `remove_user` branch (after UUID validation): cache
short-circuit to success, else `remove_user_via_api` with reload on the
non-gRPC path, else the `remove_user_from_config` + reload fallback. -/
def remove_user_command (u : String) (w : World) : HOut :=
  let (inCache, w1, tr1) := cache_exists u true w
  if !inCache then ⟨.ok ⟨true, none⟩, w1, tr1⟩
  else
    let o := remove_user_via_api u w1
    match o.res with
    | .error e => ⟨.error (.uncaught e), o.w, tr1 ++ o.tr⟩
    | .ok (succ, usedGrpc) =>
      if succ then
        if usedGrpc then ⟨.ok ⟨true, none⟩, o.w, tr1 ++ o.tr⟩
        else
          let (rOk, w2, tr2) := reload_xray o.w
          if rOk then ⟨.ok ⟨true, none⟩, w2, tr1 ++ o.tr ++ tr2⟩
          else
            ⟨.error (.http 400 "Failed to execute command: remove_user"), w2,
             tr1 ++ o.tr ++ tr2⟩
      else
        let o2 := remove_user_from_config u o.w
        match o2.res with
        | .error e => ⟨.error (.uncaught e), o2.w, tr1 ++ o.tr ++ o2.tr⟩
        | .ok succ2 =>
          if succ2 then
            let (rOk, w2, tr2) := reload_xray o2.w
            if rOk then ⟨.ok ⟨true, none⟩, w2, tr1 ++ o.tr ++ o2.tr ++ tr2⟩
            else
              ⟨.error (.http 400 "Failed to execute command: remove_user"), w2,
               tr1 ++ o.tr ++ o2.tr ++ tr2⟩
          else
            ⟨.error (.http 400 "Failed to execute command: remove_user"), o2.w,
             tr1 ++ o.tr ++ o2.tr⟩

/-- The handler's `regenerate_user` branch (after UUID validation):
`regenerate_user_via_api` first; on its failure the
`regenerate_user_in_config` + reload fallback, where the reload outcome is
only logged; a 400 when both fail. -/
def regenerate_user_command (oldU newU : String) (email : Option String)
    (w : World) : HOut :=
  let o := regenerate_user_via_api oldU newU email w
  match o.res with
  | .error e => ⟨.error (.uncaught e), o.w, o.tr⟩
  | .ok (succ, shortId) =>
    if succ then ⟨.ok ⟨true, shortId⟩, o.w, o.tr⟩
    else
      let o2 := regenerate_user_in_config oldU newU email o.w
      match o2.res with
      | .error e => ⟨.error (.uncaught e), o2.w, o.tr ++ o2.tr⟩
      | .ok (succ2, shortId2) =>
        if succ2 then
          let (_, w2, tr2) := reload_xray o2.w
          ⟨.ok ⟨true, shortId2⟩, w2, o.tr ++ o2.tr ++ tr2⟩
        else
          ⟨.error (.http 400 "Failed to regenerate user"), o2.w, o.tr ++ o2.tr⟩

/-- Number of reload commands issued in a trace. -/
def reloadCount (tr : List Ev) : Nat :=
  tr.countP (fun e => match e with | .reload _ => true | _ => false)

/-- Number of successful durable writes in a trace. -/
def saveCount (tr : List Ev) : Nat :=
  tr.countP (fun e => match e with | .saveEv _ => true | _ => false)

/-- Number of config-file loads in a trace. -/
def loadCount (tr : List Ev) : Nat :=
  tr.countP (fun e => match e with | .load => true | _ => false)

/-- Whether a handler invocation ended in a success response. -/
def resSuccess (o : HOut) : Bool :=
  match o.res with
  | .ok _ => true
  | .error _ => false

/-- The client list of the first vless inbound (empty when there is
none). -/
def vlessClients (c : Config) : List Client :=
  match findVless c with
  | some i => i.clients
  | none => []

/-- Clients of the persisted file (empty when absent/unreadable). -/
def fileClients (fs : FileState) : List Client :=
  match fs with
  | .valid c => vlessClients c
  | _ => []

/-! ## File-system level model of the durable write

`save_xray_config` lines 160-161 write with `open(config_path, "w")`
followed by `json.dump`: an in-place truncate then a write of the rendered
config.  To settle the atomicity claim the write is refined into a
sequence of file-system operations with a crash semantics (the state after
executing any prefix). -/

/-- Content of the config file at the file-system level. -/
inductive FileContent where
  | empty
  | rendered (c : Config)
  | other (s : String)
deriving DecidableEq, Repr

/-- Primitive file-system steps a save could be made of. -/
inductive WriteOp where
  | openTruncate
  | writeAll (c : Config)
  | writeTempAll (c : Config)
  | fsyncTemp
  | renameTempToMain
deriving DecidableEq, Repr

/-- Main-file content plus temp-file content. -/
structure FsState where
  main : FileContent
  temp : Option Config
deriving DecidableEq, Repr

/-- Effect of one file-system step. -/
def applyWriteOp (s : FsState) : WriteOp → FsState
  | .openTruncate => { s with main := .empty }
  | .writeAll c => { s with main := .rendered c }
  | .writeTempAll c => { s with temp := some c }
  | .fsyncTemp => s
  | .renameTempToMain =>
    match s.temp with
    | some c => { main := .rendered c, temp := none }
    | none => s

/-- Run a sequence of file-system steps. -/
def runWriteOps (s : FsState) (ops : List WriteOp) : FsState :=
  ops.foldl applyWriteOp s

/-- The file-system steps actually performed by the write section of
`save_xray_config`: truncate in place, then write the new content. -/
def saveWriteOps (c : Config) : List WriteOp :=
  [.openTruncate, .writeAll c]

/-- Crash-safe atomicity of a write sequence, as the spec demands it: after
executing any prefix (a crash point), the main file holds either the
complete prior content or the complete new content. -/
def atomicCrashSafe (ops : List WriteOp) (init : FileContent) (c : Config) : Prop :=
  ∀ p : List WriteOp, p <+: ops →
    (runWriteOps ⟨init, none⟩ p).main = init ∨
    (runWriteOps ⟨init, none⟩ p).main = .rendered c

/-! ## Concrete fixtures -/

/-- A concrete client used in counterexamples. -/
def clA : Client := ⟨"aaaaaaaa-0000-0000-0000-000000000000", some "label-e", some "xtls-rprx-vision"⟩

/-- A vless inbound with the given clients (as the default config shapes
it, `maxTimeDiff` already migrated to 10). -/
def vlessInb (cs : List Client) : Inbound := ⟨"vless", some "vless", cs, some 10⟩

/-- The api inbound of the default config. -/
def apiInb : Inbound := ⟨"dokodemo-door", some "api", [], none⟩

/-- A well-formed config holding the given clients. -/
def mkCfg (cs : List Client) : Config := ⟨[vlessInb cs, apiInb]⟩

/-- A baseline environment: gRPC unreachable, reload command succeeds,
validation mechanism unavailable (save proceeds), writes succeed. -/
def baseEnv : Env :=
  { grpcAvailable := false, grpcAddOk := false, grpcRemoveOk := false,
    reloadOk := true, validateMechanism := false, validateOk := true,
    saveIoOk := true, realityShortIds := ["s1"], now := 1000 }

/-- A baseline world: persisted config with clients `cs`, cache with id
set `users` synced 100 s ago (fresh enough to skip the staleness sync),
no reload stamp. -/
def baseWorld (cs : List Client) (users : List String) : World :=
  ⟨.valid (mkCfg cs), ⟨users, some 900, none⟩, baseEnv⟩

/-- An environment in which the validation mechanism is reachable and the
dry-run rejects the candidate config: the save raises. -/
def valFailEnv : Env :=
  { baseEnv with validateMechanism := true, validateOk := false }

/-- A world whose save will fail validation. -/
def valFailWorld : World :=
  ⟨.valid (mkCfg []), ⟨[], some 900, none⟩, valFailEnv⟩

/-- A world whose config file is present but unparseable. -/
def invalidFileWorld : World :=
  ⟨.invalid, ⟨[], some 900, none⟩, baseEnv⟩

/-- Whether `UserCache.exists(·, check_sync=True)` will rebuild the set
from the config in world `w` (first use, or last sync at least the sync
interval old). -/
def willSync (w : World) : Bool :=
  match w.cache.lastSync with
  | none => true
  | some t => decide (w.env.now - t ≥ syncIntervalSecs)

/-- Whether a trace contains a successful durable write. -/
def hasSave (tr : List Ev) : Bool :=
  tr.any (fun e => match e with | .saveEv _ => true | _ => false)

/-- `mutationsPrecededBySave seen tr`: scanning `tr`, every registry
mutation (`cAdd`/`cRemove`) is preceded by a durable write (`seen` records
whether one was already emitted). -/
def mutationsPrecededBySave : Bool → List Ev → Bool
  | _, [] => true
  | _, .saveEv _ :: r => mutationsPrecededBySave true r
  | seen, .cAdd _ :: r => seen && mutationsPrecededBySave seen r
  | seen, .cRemove _ :: r => seen && mutationsPrecededBySave seen r
  | seen, _ :: r => mutationsPrecededBySave seen r

/-- When an operation ended in a propagating exception, its final cache
equals the starting cache. -/
def errKeepsCache {α : Type} (w : World) (o : Out α) : Prop :=
  match o.res with
  | .error _ => o.w.cache = w.cache
  | .ok _ => True

/-! ## Helper lemmas -/

lemma contains_insertUser (u : String) (us : List String) :
    (insertUser u us).contains u = true := by
  unfold insertUser
  split
  · assumption
  · simp

lemma findVless_setVlessInbounds (l : List Inbound) (vi : Inbound)
    (cs : List Client)
    (h : l.find? (fun i => i.protocol == "vless") = some vi) :
    (setVlessInbounds cs l).find? (fun i => i.protocol == "vless") =
      some { vi with clients := cs } := by
  induction l with
  | nil => simp at h
  | cons hd tl ih =>
    cases hpb : (hd.protocol == "vless") with
    | true =>
      simp [List.find?_cons, hpb] at h
      cases h
      unfold setVlessInbounds
      rw [if_pos hpb]
      simp [List.find?_cons, hpb]
    | false =>
      simp [List.find?_cons, hpb] at h
      unfold setVlessInbounds
      rw [if_neg (by simp [hpb])]
      simp [List.find?_cons, hpb]
      exact ih h

lemma findVless_setVlessClients (c : Config) (vi : Inbound) (cs : List Client)
    (h : findVless c = some vi) :
    findVless (setVlessClients c cs) = some { vi with clients := cs } :=
  findVless_setVlessInbounds c.inbounds vi cs h

lemma migrInbounds_setVlessInbounds (cs : List Client) (l : List Inbound)
    (h : migrInbounds l = none) :
    migrInbounds (setVlessInbounds cs l) = none := by
  induction l with
  | nil => rfl
  | cons hd tl ih =>
    unfold migrInbounds at h
    by_cases ht : migrTrigger hd = true
    · simp [ht] at h
    · simp [ht] at h
      cases hm : migrInbounds tl with
      | some r => rw [hm] at h; simp at h
      | none =>
        unfold setVlessInbounds
        split
        · unfold migrInbounds
          have : migrTrigger { hd with clients := cs } = migrTrigger hd := rfl
          simp [this, ht, hm]
        · unfold migrInbounds
          simp [ht, ih hm]

lemma mutations_append (a b : List Ev) (s : Bool) :
    mutationsPrecededBySave s (a ++ b) =
      (mutationsPrecededBySave s a &&
        mutationsPrecededBySave (s || hasSave a) b) := by
  induction a generalizing s with
  | nil => simp [mutationsPrecededBySave, hasSave]
  | cons hd tl ih =>
    cases hd <;>
      simp [mutationsPrecededBySave, hasSave, ih, List.any_cons, Bool.and_assoc]

lemma contains_false_iff (us : List String) (u : String) :
    us.contains u = false ↔ u ∉ us := by
  constructor
  · intro h hm
    have h2 : us.contains u = true := List.elem_eq_true_of_mem hm
    rw [h2] at h
    exact Bool.true_eq_false.mp h
  · intro h
    cases hc : us.contains u
    · rfl
    · exact absurd (List.mem_of_elem_eq_true hc) h

lemma save_ok (c : Config) (w : World)
    (hnv : (w.env.validateMechanism && !w.env.validateOk) = false)
    (hio : w.env.saveIoOk = true) :
    save_xray_config c w = ⟨.ok (), { w with file := .valid c }, [.saveEv c]⟩ := by
  unfold save_xray_config
  simp [hnv, hio]

lemma save_cases (c : Config) (w : World) :
    save_xray_config c w = ⟨.error "ValueError: Invalid XRay configuration", w, []⟩ ∨
    save_xray_config c w = ⟨.ok (), { w with file := .valid c }, [.saveEv c]⟩ ∨
    save_xray_config c w = ⟨.error "IOError", w, []⟩ := by
  unfold save_xray_config
  split
  · exact Or.inl rfl
  · split
    · exact Or.inr (Or.inl rfl)
    · exact Or.inr (Or.inr rfl)

lemma load_cache_eq (w : World) : (load_xray_config w).w.cache = w.cache := by
  unfold load_xray_config
  cases w.file with
  | absent => rfl
  | invalid => rfl
  | valid c =>
    cases hm : migrInbounds c.inbounds with
    | none => simp [hm]
    | some inbs =>
      rcases save_cases ⟨inbs⟩ w with h | h | h <;> simp [hm, h, reload_xray]

lemma load_no_mutations (w : World) (s : Bool) :
    mutationsPrecededBySave s (load_xray_config w).tr = true := by
  unfold load_xray_config
  cases w.file with
  | absent => simp [mutationsPrecededBySave]
  | invalid => simp [mutationsPrecededBySave]
  | valid c =>
    cases hm : migrInbounds c.inbounds with
    | none => simp [hm, mutationsPrecededBySave]
    | some inbs =>
      rcases save_cases ⟨inbs⟩ w with h | h | h <;>
        simp [hm, h, reload_xray, mutationsPrecededBySave]

lemma clientIdsHave_filter (cs : List Client) (q : Client → Bool) (u : String)
    (h : clientIdsHave cs u = false) :
    clientIdsHave (cs.filter q) u = false := by
  simp only [clientIdsHave, List.any_eq_false] at h ⊢
  intro cl hm
  exact h cl (List.mem_of_mem_filter hm)

lemma countP_id_zero (cs : List Client) (u : String)
    (h : clientIdsHave cs u = false) :
    cs.countP (fun cl => cl.id == u) = 0 := by
  simp only [clientIdsHave, List.any_eq_false] at h
  rw [List.countP_eq_zero]
  exact h

lemma find_id_none (cs : List Client) (u : String)
    (h : clientIdsHave cs u = false) :
    cs.find? (fun cl => cl.id == u) = none := by
  rw [List.find?_eq_none]
  simp only [clientIdsHave, List.any_eq_false] at h
  exact h

lemma filter_id_self (cs : List Client) (u : String)
    (h : clientIdsHave cs u = false) :
    cs.filter (fun cl => cl.id != u) = cs := by
  rw [List.filter_eq_self]
  simp only [clientIdsHave, List.any_eq_false] at h
  intro cl hm
  have := h cl hm
  simp only [beq_iff_eq] at this
  simp [bne_iff_ne, this]

lemma dedup_all_prop (cs : List Client) (em u : String) :
    ∀ x ∈ dropConflicting cs em u, ¬ x.email = some em ∨ x.id = u := by
  intro x hx1
  have hp := List.of_mem_filter hx1
  cases hq : (x.email == some em) with
  | false =>
    refine Or.inl ?_
    intro he
    rw [he] at hq
    simp at hq
  | true =>
    simp [hq, bne] at hp
    exact Or.inr hp

lemma dropConflicting_all (cs : List Client) (em u : String) :
    (dropConflicting cs em u).all
      (fun cl => !(cl.email == some em) || cl.id == u) = true := by
  rw [List.all_eq_true]
  intro cl hm
  have hp := List.of_mem_filter hm
  revert hp
  cases hq : (cl.email == some em) <;> cases hr : (cl.id == u) <;>
    simp [hq, hr, bne]

/-! ## Claim C3 — atomicity of the durable write -/

/-- C3, counterexample: the write sequence of `save_xray_config` is not
crash-safe-atomic.  Saving a one-client config over a previously valid
empty config admits the crash point right after the in-place truncation,
where the file holds neither the prior nor the new content. -/
theorem C3_counterexample :
    ¬ atomicCrashSafe (saveWriteOps (mkCfg [clA])) (.rendered (mkCfg []))
      (mkCfg [clA]) := by
  intro h
  have h1 := h [.openTruncate] ⟨[.writeAll (mkCfg [clA])], rfl⟩
  exact absurd h1 (by decide)

/-- C3, amended: `save(c)` validates and then writes the config file in
place — an open-with-truncate followed by the full write, with no
temporary file, fsync or rename — so the only states reachable at a crash
point are the prior content, the truncated (partial) file, and the new
content; a crash between truncate and write loses the prior valid file. -/
theorem C3_theorem (init : FileContent) (c : Config) (p : List WriteOp)
    (hp : p <+: saveWriteOps c) :
    (runWriteOps ⟨init, none⟩ p).main = init ∨
    (runWriteOps ⟨init, none⟩ p).main = .empty ∨
    (runWriteOps ⟨init, none⟩ p).main = .rendered c := by
  obtain ⟨t, ht⟩ := hp
  match p with
  | [] => exact Or.inl rfl
  | [x] =>
    simp only [saveWriteOps, List.cons_append, List.cons.injEq] at ht
    rw [ht.1]
    exact Or.inr (Or.inl rfl)
  | x :: y :: rest =>
    simp only [saveWriteOps, List.cons_append, List.cons.injEq,
      List.append_eq_nil] at ht
    rw [ht.1, ht.2.1, ht.2.2.1]
    exact Or.inr (Or.inr rfl)

/-- Witness for C3_theorem at the crash point after the truncation. -/
theorem C3_witness :
    (runWriteOps ⟨.rendered (mkCfg []), none⟩ [WriteOp.openTruncate]).main =
        .rendered (mkCfg []) ∨
    (runWriteOps ⟨.rendered (mkCfg []), none⟩ [WriteOp.openTruncate]).main =
        .empty ∨
    (runWriteOps ⟨.rendered (mkCfg []), none⟩ [WriteOp.openTruncate]).main =
        .rendered (mkCfg [clA]) :=
  C3_theorem (.rendered (mkCfg [])) (mkCfg [clA]) [.openTruncate]
    ⟨[.writeAll (mkCfg [clA])], rfl⟩

/-! ## Claim C5 — load() on the three file states -/

/-- C5, counterexample: with the config file present but unparseable,
`load()` does not synthesize a default — the `json.JSONDecodeError`
propagates. -/
theorem C5_counterexample :
    (load_xray_config invalidFileWorld).res = .error "JSONDecodeError" := by
  rfl

/-- C5, amended: `load()` synthesizes a structurally valid default (it
contains a vless inbound) when the file is absent, returns the parsed
content — after the lazily-applied `maxTimeDiff` migration — when the
file is present and parseable, and raises when the file is present but
unparseable. -/
theorem C5_theorem (w : World) :
    ((load_xray_config w).res =
      match w.file with
      | .absent => .ok (get_default_config w)
      | .invalid => .error "JSONDecodeError"
      | .valid c =>
        match migrInbounds c.inbounds with
        | none => .ok c
        | some inbs => .ok ⟨inbs⟩) ∧
    (findVless (get_default_config w)).isSome = true := by
  constructor
  · unfold load_xray_config
    cases w.file with
    | absent => rfl
    | invalid => rfl
    | valid c =>
      cases hm : migrInbounds c.inbounds with
      | none => simp [hm]
      | some inbs =>
        rcases save_cases ⟨inbs⟩ w with h | h | h <;> simp [hm, h, reload_xray]
  · rfl

/-! ## Claim C4 — exception containment at the engine boundary -/

/-- C4, counterexample: an `add_user` command in a world where gRPC is
unreachable and the out-of-process validation rejects the merged config:
`save_xray_config` raises `ValueError` inside the fallback, and the
exception escapes `receive_command` uncaught instead of becoming a
failure result. -/
theorem C4_counterexample :
    (add_user_command "u1" none valFailWorld).res =
      .error (.uncaught "ValueError: Invalid XRay configuration") := by
  rfl

/-- C4, amended: failures of the gRPC client and of the reload command are
absorbed into boolean results, but exceptions from the config-store layer
are not caught by the command handler: whenever the `add_user` fallback
reaches the save and validation rejects the candidate config, the
`ValueError` propagates out of the handler (and the world is left with the
prior file and cache). -/
theorem C4_theorem (w : World) (c : Config) (vi : Inbound) (u : String)
    (email : Option String) (t : Nat)
    (hfile : w.file = .valid c)
    (hmig : migrInbounds c.inbounds = none)
    (hv : findVless c = some vi)
    (hhave : clientIdsHave vi.clients u = false)
    (hls : w.cache.lastSync = some t)
    (hfresh : w.env.now - t < syncIntervalSecs)
    (hmem : w.cache.users.contains u = false)
    (hgrpc : w.env.grpcAvailable = false)
    (hvm : w.env.validateMechanism = true)
    (hvo : w.env.validateOk = false) :
    (add_user_command u email w).res =
        .error (.uncaught "ValueError: Invalid XRay configuration") ∧
    (add_user_command u email w).w = w := by
  have hnotsync : ¬ (w.env.now - t ≥ syncIntervalSecs) := by omega
  have hmem2 : u ∉ w.cache.users := by
    intro hmm
    have h2 : w.cache.users.contains u = true := List.elem_eq_true_of_mem hmm
    rw [h2] at hmem
    exact Bool.true_eq_false.mp hmem
  simp [add_user_command, cache_exists, maybe_sync, hls, hnotsync,
    add_user_via_api, load_xray_config, hfile, hmig, hv, hhave, hmem2, hgrpc,
    fallbackAdd, save_xray_config, hvm, hvo, add_user_after]

/-- Witness for C4_theorem: the concrete validation-failure world. -/
theorem C4_witness :
    (add_user_command "u1" none valFailWorld).res =
        .error (.uncaught "ValueError: Invalid XRay configuration") ∧
    (add_user_command "u1" none valFailWorld).w = valFailWorld :=
  C4_theorem valFailWorld (mkCfg []) (vlessInb []) "u1" none 900
    (by rfl) (by rfl) (by rfl) (by rfl) (by rfl) (by decide) (by rfl)
    (by rfl) (by rfl) (by rfl)

/-! ## Claim C2 — idempotent remove of an absent identifier -/

/-- C2, counterexample: identifier `"u1"` is not in the persisted client
list, but the stale registry (synced 100 s ago, within its 5-minute
freshness window) still contains it; the `remove_user` command then runs
both removal paths, both report the id as not found, and the command
fails with a 400 instead of returning success.  The persisted list is
still left unchanged. -/
theorem C2_counterexample :
    resSuccess (remove_user_command "u1" (baseWorld [] ["u1"])) = false ∧
    (remove_user_command "u1" (baseWorld [] ["u1"])).w.file =
      (baseWorld [] ["u1"]).file := by
  decide

/-- C2, amended: for an identifier absent from the persisted client list,
`remove_user` leaves the persisted file unchanged, and returns success
precisely when the registry look-up (after its staleness-gated sync) does
not report the identifier: on first use or a stale registry the sync makes
the look-up agree with the config and the command succeeds, while a fresh
registry that still (wrongly) contains the identifier makes the command
fail with a 400. -/
theorem C2_theorem (w : World) (c : Config) (vi : Inbound) (u : String)
    (hfile : w.file = .valid c)
    (hmig : migrInbounds c.inbounds = none)
    (hv : findVless c = some vi)
    (hhave : clientIdsHave vi.clients u = false)
    (hsync : (syncIds c).contains u = false) :
    (remove_user_command u w).w.file = w.file ∧
    resSuccess (remove_user_command u w) =
      (willSync w || !(w.cache.users.contains u)) := by
  have hsyncmem : u ∉ syncIds c := (contains_false_iff _ _).mp hsync
  have hfind := find_id_none vi.clients u hhave
  have hfilter := filter_id_self vi.clients u hhave
  rcases hls : w.cache.lastSync with _ | t
  · simp [remove_user_command, cache_exists, maybe_sync, hls, sync_from_config,
      load_xray_config, hfile, hmig, willSync, hsyncmem, resSuccess]
  · by_cases hstale : w.env.now - t ≥ syncIntervalSecs
    · simp [remove_user_command, cache_exists, maybe_sync, hls, hstale,
        sync_from_config, load_xray_config, hfile, hmig, willSync, hsyncmem,
        resSuccess]
    · cases hc : w.cache.users.contains u with
      | false =>
        have hcm : u ∉ w.cache.users := (contains_false_iff _ _).mp hc
        simp [remove_user_command, cache_exists, maybe_sync, hls, hstale,
          willSync, hcm, resSuccess, hc]
      | true =>
        have hcm : u ∈ w.cache.users := List.mem_of_elem_eq_true hc
        simp [remove_user_command, cache_exists, maybe_sync, hls, hstale,
          willSync, hcm, resSuccess, hc, remove_user_via_api,
          load_xray_config, hfile, hmig, hv, hfind, remove_user_from_config,
          hfilter]

/-- Witness for C2_theorem at the stale-registry world of the
counterexample. -/
theorem C2_witness :
    (remove_user_command "u1" (baseWorld [] ["u1"])).w.file =
        (baseWorld [] ["u1"]).file ∧
    resSuccess (remove_user_command "u1" (baseWorld [] ["u1"])) =
      (willSync (baseWorld [] ["u1"]) ||
        !((baseWorld [] ["u1"]).cache.users.contains "u1")) :=
  C2_theorem (baseWorld [] ["u1"]) (mkCfg []) (vlessInb []) "u1"
    (by rfl) (by rfl) (by rfl) (by rfl) (by rfl)

/-! ## Claim C6 — label-conflict resolution before appending -/

/-- C6, counterexample: the persisted config holds client `clA` (label
`"label-e"`); a `regenerate_user` appending a new identifier with that
same label does not drop `clA`: afterwards the persisted list carries two
entries with the label, and `clA` is still present. -/
theorem C6_counterexample :
    ((fileClients (regenerate_user_command "bbbb" "cccc" (some "label-e")
        (baseWorld [clA] [])).w.file).filter
      (fun cl => cl.email == some "label-e")).length = 2 ∧
    (fileClients (regenerate_user_command "bbbb" "cccc" (some "label-e")
        (baseWorld [clA] [])).w.file).contains clA = true := by
  decide

/-- C6, amended: only the add operations deduplicate labels: when
`add_user_via_api` appends a new entry, every persisted client carrying
the new entry's label (twice filtered, then persisted on either apply
path) has the new identifier.  The replace operations drop only the old
identifier and perform no label deduplication, so a stale entry with the
new label survives them (see the counterexample). -/
theorem C6_theorem (w : World) (c : Config) (vi : Inbound) (u : String)
    (email : Option String)
    (hfile : w.file = .valid c)
    (hmig : migrInbounds c.inbounds = none)
    (hv : findVless c = some vi)
    (hhave : clientIdsHave vi.clients u = false)
    (hnv : (w.env.validateMechanism && !w.env.validateOk) = false)
    (hio : w.env.saveIoOk = true) :
    (add_user_via_api u email w).res =
      .ok (true, w.env.grpcAvailable && w.env.grpcAddOk) ∧
    (fileClients (add_user_via_api u email w).w.file).all
      (fun cl => !(cl.email == some (emailToUse email u)) || cl.id == u) =
      true := by
  have hfv := findVless_setVlessClients c vi
    (dropConflicting (dropConflicting vi.clients (emailToUse email u) u)
        (emailToUse email u) u ++ [mkNewClient u (emailToUse email u)]) hv
  simp only [mkNewClient] at hfv
  have hdd := dedup_all_prop (dropConflicting vi.clients (emailToUse email u) u)
    (emailToUse email u) u
  by_cases hga : w.env.grpcAvailable = true
  · by_cases hok : w.env.grpcAddOk = true
    · simp [add_user_via_api, load_xray_config, hfile, hmig, hv, hhave, hga,
        hok, save_ok _ _ hnv hio, cacheAdd, fileClients, vlessClients, hfv,
        mkNewClient]
      exact hdd
    · simp [add_user_via_api, load_xray_config, hfile, hmig, hv, hhave, hga,
        hok, fallbackAdd, save_ok _ _ hnv hio, cacheAdd, fileClients,
        vlessClients, hfv, mkNewClient, Bool.eq_false_iff.mpr hok]
      exact hdd
  · simp [add_user_via_api, load_xray_config, hfile, hmig, hv, hhave, hga,
      fallbackAdd, save_ok _ _ hnv hio, cacheAdd, fileClients, vlessClients,
      hfv, mkNewClient, Bool.eq_false_iff.mpr hga]
    exact hdd

/-- Witness for C6_theorem: adding over a config whose only client holds
the same label under a different identifier. -/
theorem C6_witness :
    (add_user_via_api "cccc" (some "label-e") (baseWorld [clA] [])).res =
      .ok (true, (baseWorld [clA] []).env.grpcAvailable &&
        (baseWorld [clA] []).env.grpcAddOk) ∧
    (fileClients (add_user_via_api "cccc" (some "label-e")
        (baseWorld [clA] [])).w.file).all
      (fun cl => !(cl.email == some (emailToUse (some "label-e") "cccc")) ||
        cl.id == "cccc") = true :=
  C6_theorem (baseWorld [clA] []) (mkCfg [clA]) (vlessInb [clA]) "cccc"
    (some "label-e") (by rfl) (by rfl) (by rfl) (by rfl) (by rfl) (by rfl)

/-! ## Claim C1 — fallback add: merge, save, registry, reload decision -/

/-- C1, counterexample: a world with the gRPC channel unavailable.  The
`add_user` command takes the fallback path (merge + save + registry
update) and issues no reload, yet `should_reload_xray` evaluated on the
resulting state returns `true` — so "reload iff shouldReload" fails: the
handler decides by registry membership and never consults
`should_reload_xray`. -/
theorem C1_counterexample :
    reloadCount (add_user_command "u1" none (baseWorld [] [])).tr = 0 ∧
    (should_reload_xray "u1"
      (add_user_command "u1" none (baseWorld [] [])).w).1 = true ∧
    resSuccess (add_user_command "u1" none (baseWorld [] [])) = true := by
  decide

/-- C1, amended: on a live (gRPC) apply that is unavailable or fails, the
engine merges the new user into the loaded config, saves it, and adds the
identifier to the registry; the subsequent reload decision is registry
membership (`user_cache.exists` with `check_sync=False`), not
`should_reload_xray` — and since the fallback just added the identifier,
no reload command is issued on this path. -/
theorem C1_theorem (w : World) (c : Config) (vi : Inbound) (u : String)
    (email : Option String) (t : Nat)
    (hfile : w.file = .valid c)
    (hmig : migrInbounds c.inbounds = none)
    (hv : findVless c = some vi)
    (hhave : clientIdsHave vi.clients u = false)
    (hls : w.cache.lastSync = some t)
    (hfresh : w.env.now - t < syncIntervalSecs)
    (hmem : w.cache.users.contains u = false)
    (hlive : w.env.grpcAvailable = false ∨ w.env.grpcAddOk = false)
    (hnv : (w.env.validateMechanism && !w.env.validateOk) = false)
    (hio : w.env.saveIoOk = true) :
    (add_user_command u email w).res =
      .ok ⟨true, w.env.realityShortIds.head?⟩ ∧
    (add_user_command u email w).w.file =
      .valid (setVlessClients c
        (dropConflicting (dropConflicting vi.clients (emailToUse email u) u)
            (emailToUse email u) u ++ [mkNewClient u (emailToUse email u)])) ∧
    (add_user_command u email w).w.cache.users.contains u = true ∧
    reloadCount (add_user_command u email w).tr = 0 := by
  have hnotsync : ¬ (w.env.now - t ≥ syncIntervalSecs) := by omega
  have hmem2 : u ∉ w.cache.users := (contains_false_iff _ _).mp hmem
  have hins : u ∈ insertUser u w.cache.users :=
    List.mem_of_elem_eq_true (contains_insertUser u w.cache.users)
  rcases hlive with hga | hok
  · simp [add_user_command, cache_exists, maybe_sync, hls, hnotsync, hmem2,
      add_user_via_api, load_xray_config, hfile, hmig, hv, hhave, hga,
      fallbackAdd, save_ok _ _ hnv hio, cacheAdd, add_user_after, hins,
      reloadCount, insertUser, mutationsPrecededBySave]
  · by_cases hga : w.env.grpcAvailable = true
    · simp [add_user_command, cache_exists, maybe_sync, hls, hnotsync, hmem2,
        add_user_via_api, load_xray_config, hfile, hmig, hv, hhave, hga, hok,
        fallbackAdd, save_ok _ _ hnv hio, cacheAdd, add_user_after, hins,
        reloadCount, insertUser]
    · simp [add_user_command, cache_exists, maybe_sync, hls, hnotsync, hmem2,
        add_user_via_api, load_xray_config, hfile, hmig, hv, hhave, hga,
        fallbackAdd, save_ok _ _ hnv hio, cacheAdd, add_user_after, hins,
        reloadCount, insertUser]

/-- Witness for C1_theorem at the concrete gRPC-unavailable world. -/
theorem C1_witness :
    (add_user_command "u1" none (baseWorld [] [])).res =
      .ok ⟨true, (baseWorld [] []).env.realityShortIds.head?⟩ ∧
    (add_user_command "u1" none (baseWorld [] [])).w.file =
      .valid (setVlessClients (mkCfg [])
        (dropConflicting (dropConflicting (vlessInb []).clients
            (emailToUse none "u1") "u1") (emailToUse none "u1") "u1" ++
          [mkNewClient "u1" (emailToUse none "u1")])) ∧
    (add_user_command "u1" none (baseWorld [] [])).w.cache.users.contains
      "u1" = true ∧
    reloadCount (add_user_command "u1" none (baseWorld [] [])).tr = 0 :=
  C1_theorem (baseWorld [] []) (mkCfg []) (vlessInb []) "u1" none 900
    (by rfl) (by rfl) (by rfl) (by rfl) (by rfl) (by decide) (by rfl)
    (Or.inl (by rfl)) (by rfl) (by rfl)

/-! ## Claim C7 — replace: one snapshot, one save, at most one reload -/

/-- C7: a `regenerate_user` command on a steady-state config with a vless
inbound loads one snapshot, drops the old identifier (whether or not it
was present), appends the new entry, performs exactly one durable write,
and issues at most one reload command (in fact none). -/
theorem C7_theorem (w : World) (c : Config) (vi : Inbound)
    (oldU newU : String) (email : Option String)
    (hfile : w.file = .valid c)
    (hmig : migrInbounds c.inbounds = none)
    (hv : findVless c = some vi)
    (hnv : (w.env.validateMechanism && !w.env.validateOk) = false)
    (hio : w.env.saveIoOk = true) :
    (regenerate_user_command oldU newU email w).res =
      .ok ⟨true, w.env.realityShortIds.head?⟩ ∧
    (regenerate_user_command oldU newU email w).w.file =
      .valid (setVlessClients c
        (vi.clients.filter (fun cl => cl.id != oldU) ++
          [mkNewClient newU (emailToUse email newU)])) ∧
    saveCount (regenerate_user_command oldU newU email w).tr = 1 ∧
    loadCount (regenerate_user_command oldU newU email w).tr = 1 ∧
    reloadCount (regenerate_user_command oldU newU email w).tr ≤ 1 := by
  simp [regenerate_user_command, regenerate_user_via_api, load_xray_config,
    hfile, hmig, hv, update_inbound_via_api, save_ok _ _ hnv hio,
    cacheRemove, cacheAdd, saveCount, loadCount, reloadCount,
    List.countP_cons, List.countP_append]

/-- Witness for C7_theorem: a replace over the one-client base world. -/
theorem C7_witness :
    (regenerate_user_command "aaaa" "bbbb" none (baseWorld [clA] [])).res =
      .ok ⟨true, (baseWorld [clA] []).env.realityShortIds.head?⟩ ∧
    (regenerate_user_command "aaaa" "bbbb" none (baseWorld [clA] [])).w.file =
      .valid (setVlessClients (mkCfg [clA])
        ((vlessInb [clA]).clients.filter (fun cl => cl.id != "aaaa") ++
          [mkNewClient "bbbb" (emailToUse none "bbbb")])) ∧
    saveCount (regenerate_user_command "aaaa" "bbbb" none
      (baseWorld [clA] [])).tr = 1 ∧
    loadCount (regenerate_user_command "aaaa" "bbbb" none
      (baseWorld [clA] [])).tr = 1 ∧
    reloadCount (regenerate_user_command "aaaa" "bbbb" none
      (baseWorld [clA] [])).tr ≤ 1 :=
  C7_theorem (baseWorld [clA] []) (mkCfg [clA]) (vlessInb [clA]) "aaaa" "bbbb"
    none (by rfl) (by rfl) (by rfl) (by rfl) (by rfl)

/-! ## Claim C10 — the regenerate reload branch is unreachable -/

/-- C10: `update_inbound_via_api` returns `False` on every input, yet
`regenerate_user_via_api` still succeeds after saving the mutated config,
so the command handler's fallback branch (`regenerate_user_in_config`
followed by `reload_xray`) is never entered: the whole `regenerate_user`
command issues zero reload commands. -/
theorem C10_theorem (inbound : Inbound) (tg : String) (w : World)
    (c : Config) (vi : Inbound) (oldU newU : String) (email : Option String)
    (hfile : w.file = .valid c)
    (hmig : migrInbounds c.inbounds = none)
    (hv : findVless c = some vi)
    (hnv : (w.env.validateMechanism && !w.env.validateOk) = false)
    (hio : w.env.saveIoOk = true) :
    update_inbound_via_api inbound tg = false ∧
    (regenerate_user_via_api oldU newU email w).res =
      .ok (true, w.env.realityShortIds.head?) ∧
    resSuccess (regenerate_user_command oldU newU email w) = true ∧
    reloadCount (regenerate_user_command oldU newU email w).tr = 0 := by
  refine ⟨rfl, ?_, ?_, ?_⟩ <;>
    simp [regenerate_user_command, regenerate_user_via_api, load_xray_config,
      hfile, hmig, hv, update_inbound_via_api, save_ok _ _ hnv hio,
      cacheRemove, cacheAdd, resSuccess, reloadCount, List.countP_cons,
      List.countP_append]

/-- Witness for C10_theorem at the one-client base world. -/
theorem C10_witness :
    update_inbound_via_api (vlessInb [clA]) "vless" = false ∧
    (regenerate_user_via_api "aaaa" "bbbb" none (baseWorld [clA] [])).res =
      .ok (true, (baseWorld [clA] []).env.realityShortIds.head?) ∧
    resSuccess (regenerate_user_command "aaaa" "bbbb" none
      (baseWorld [clA] [])) = true ∧
    reloadCount (regenerate_user_command "aaaa" "bbbb" none
      (baseWorld [clA] [])).tr = 0 :=
  C10_theorem (vlessInb [clA]) "vless" (baseWorld [clA] []) (mkCfg [clA])
    (vlessInb [clA]) "aaaa" "bbbb" none
    (by rfl) (by rfl) (by rfl) (by rfl) (by rfl)

/-! ## Claim C8 — add twice: success twice, one persisted entry -/

lemma clientIdsHave_dropConflicting (cs : List Client) (em u : String)
    (h : clientIdsHave cs u = false) :
    clientIdsHave (dropConflicting cs em u) u = false :=
  clientIdsHave_filter cs _ u h

lemma merged_count_one (cs : List Client) (em u : String)
    (hhave : clientIdsHave cs u = false) :
    (dropConflicting (dropConflicting cs em u) em u ++
      [mkNewClient u em]).countP (fun cl => cl.id == u) = 1 := by
  rw [List.countP_append]
  have h2 := clientIdsHave_dropConflicting (dropConflicting cs em u) em u
    (clientIdsHave_dropConflicting cs em u hhave)
  rw [countP_id_zero _ u h2]
  simp [mkNewClient, List.countP_cons]

/-- Characterization of a successful `add_user_via_api` on a fresh id over
a steady-state config, across all three gRPC outcomes. -/
lemma add_api_ok (w1 : World) (c : Config) (vi : Inbound) (u : String)
    (email : Option String)
    (hfile : w1.file = .valid c)
    (hmig : migrInbounds c.inbounds = none)
    (hv : findVless c = some vi)
    (hhave : clientIdsHave vi.clients u = false)
    (hnv : (w1.env.validateMechanism && !w1.env.validateOk) = false)
    (hio : w1.env.saveIoOk = true) :
    (add_user_via_api u email w1).res =
      .ok (true, w1.env.grpcAvailable && w1.env.grpcAddOk) ∧
    (add_user_via_api u email w1).w =
      { w1 with
        file := .valid (setVlessClients c
          (dropConflicting (dropConflicting vi.clients (emailToUse email u) u)
              (emailToUse email u) u ++ [mkNewClient u (emailToUse email u)])),
        cache := { w1.cache with users := insertUser u w1.cache.users } } := by
  by_cases hga : w1.env.grpcAvailable = true
  · by_cases hok : w1.env.grpcAddOk = true
    · simp [add_user_via_api, load_xray_config, hfile, hmig, hv, hhave, hga,
        hok, save_ok _ _ hnv hio, cacheAdd]
    · simp [add_user_via_api, load_xray_config, hfile, hmig, hv, hhave, hga,
        Bool.eq_false_iff.mpr hok, fallbackAdd, save_ok _ _ hnv hio, cacheAdd]
  · simp [add_user_via_api, load_xray_config, hfile, hmig, hv, hhave,
      Bool.eq_false_iff.mpr hga, fallbackAdd, save_ok _ _ hnv hio, cacheAdd]

/-- The `add_user` handler tail succeeds without touching the world when
the operation reported success and the registry now holds the id. -/
lemma add_cmd_after_ok (u : String) (usedGrpc : Bool) (w2 : World)
    (tr : List Ev) (hmem : w2.cache.users.contains u = true) :
    (add_user_after u true usedGrpc w2 tr).res =
      .ok ⟨true, w2.env.realityShortIds.head?⟩ ∧
    (add_user_after u true usedGrpc w2 tr).w = w2 := by
  cases usedGrpc
  · simp [add_user_after, cache_exists, List.mem_of_elem_eq_true hmem]
  · simp [add_user_after]

/-- C8: starting from a steady-state config without identifier `u` and a
registry that agrees, two consecutive `add_user u` commands both return
success, and afterwards the persisted client list holds exactly one entry
with id `u`. -/
theorem C8_theorem (w : World) (c : Config) (vi : Inbound) (u : String)
    (email : Option String)
    (hfile : w.file = .valid c)
    (hmig : migrInbounds c.inbounds = none)
    (hv : findVless c = some vi)
    (hhave : clientIdsHave vi.clients u = false)
    (hsync : (syncIds c).contains u = false)
    (hmem : w.cache.users.contains u = false)
    (hnv : (w.env.validateMechanism && !w.env.validateOk) = false)
    (hio : w.env.saveIoOk = true) :
    resSuccess (add_user_command u email w) = true ∧
    resSuccess (add_user_command u email (add_user_command u email w).w) =
      true ∧
    (fileClients (add_user_command u email
        (add_user_command u email w).w).w.file).countP
      (fun cl => cl.id == u) = 1 := by
  have hmem2 : u ∉ w.cache.users := (contains_false_iff _ _).mp hmem
  have hsyncmem : u ∉ syncIds c := (contains_false_iff _ _).mp hsync
  have hfv := findVless_setVlessClients c vi
    (dropConflicting (dropConflicting vi.clients (emailToUse email u) u)
        (emailToUse email u) u ++ [mkNewClient u (emailToUse email u)]) hv
  have hcount := merged_count_one vi.clients (emailToUse email u) u hhave
  have hins : ∀ us : List String, u ∈ insertUser u us := fun us =>
    List.mem_of_elem_eq_true (contains_insertUser u us)
  have h0 : ¬ (syncIntervalSecs ≤ 0) := by decide
  rcases hls : w.cache.lastSync with _ | t
  · by_cases hga : w.env.grpcAvailable = true
    · by_cases hok : w.env.grpcAddOk = true
      · simp [add_user_command, cache_exists, maybe_sync, hls,
          sync_from_config, load_xray_config, hfile, hmig, hsyncmem,
          add_user_via_api, hv, hhave, hga, hok, save_ok, hnv, hio,
          fallbackAdd, cacheAdd, add_user_after, hins, fileClients,
          vlessClients, hfv, hcount, resSuccess, insertUser, h0, Nat.sub_self]
      · simp [add_user_command, cache_exists, maybe_sync, hls,
          sync_from_config, load_xray_config, hfile, hmig, hsyncmem,
          add_user_via_api, hv, hhave, hga, Bool.eq_false_iff.mpr hok,
          save_ok, hnv, hio, fallbackAdd, cacheAdd, add_user_after, hins,
          fileClients, vlessClients, hfv, hcount, resSuccess, insertUser, h0, Nat.sub_self]
    · simp [add_user_command, cache_exists, maybe_sync, hls,
        sync_from_config, load_xray_config, hfile, hmig, hsyncmem,
        add_user_via_api, hv, hhave, Bool.eq_false_iff.mpr hga, save_ok, hnv,
        hio, fallbackAdd, cacheAdd, add_user_after, hins, fileClients,
        vlessClients, hfv, hcount, resSuccess, insertUser, h0, Nat.sub_self]
  · by_cases hstale : w.env.now - t ≥ syncIntervalSecs
    · by_cases hga : w.env.grpcAvailable = true
      · by_cases hok : w.env.grpcAddOk = true
        · simp [add_user_command, cache_exists, maybe_sync, hls, hstale,
            sync_from_config, load_xray_config, hfile, hmig, hsyncmem,
            add_user_via_api, hv, hhave, hga, hok, save_ok, hnv, hio,
            fallbackAdd, cacheAdd, add_user_after, hins, fileClients,
            vlessClients, hfv, hcount, resSuccess, insertUser, h0, Nat.sub_self]
        · simp [add_user_command, cache_exists, maybe_sync, hls, hstale,
            sync_from_config, load_xray_config, hfile, hmig, hsyncmem,
            add_user_via_api, hv, hhave, hga, Bool.eq_false_iff.mpr hok,
            save_ok, hnv, hio, fallbackAdd, cacheAdd, add_user_after, hins,
            fileClients, vlessClients, hfv, hcount, resSuccess, insertUser, h0, Nat.sub_self]
      · simp [add_user_command, cache_exists, maybe_sync, hls, hstale,
          sync_from_config, load_xray_config, hfile, hmig, hsyncmem,
          add_user_via_api, hv, hhave, Bool.eq_false_iff.mpr hga, save_ok,
          hnv, hio, fallbackAdd, cacheAdd, add_user_after, hins, fileClients,
          vlessClients, hfv, hcount, resSuccess, insertUser, h0, Nat.sub_self]
    · by_cases hga : w.env.grpcAvailable = true
      · by_cases hok : w.env.grpcAddOk = true
        · simp [add_user_command, cache_exists, maybe_sync, hls, hstale,
            load_xray_config, hfile, hmig, hmem2, add_user_via_api, hv,
            hhave, hga, hok, save_ok, hnv, hio, fallbackAdd, cacheAdd,
            add_user_after, hins, fileClients, vlessClients, hfv, hcount,
            resSuccess, insertUser]
        · simp [add_user_command, cache_exists, maybe_sync, hls, hstale,
            load_xray_config, hfile, hmig, hmem2, add_user_via_api, hv,
            hhave, hga, Bool.eq_false_iff.mpr hok, save_ok, hnv, hio,
            fallbackAdd, cacheAdd, add_user_after, hins, fileClients,
            vlessClients, hfv, hcount, resSuccess, insertUser]
      · simp [add_user_command, cache_exists, maybe_sync, hls, hstale,
          load_xray_config, hfile, hmig, hmem2, add_user_via_api, hv, hhave,
          Bool.eq_false_iff.mpr hga, save_ok, hnv, hio, fallbackAdd,
          cacheAdd, add_user_after, hins, fileClients, vlessClients, hfv,
          hcount, resSuccess, insertUser]

/-- Witness for C8_theorem: two adds of `"u1"` over the empty base
world. -/
theorem C8_witness :
    resSuccess (add_user_command "u1" none (baseWorld [] [])) = true ∧
    resSuccess (add_user_command "u1" none
      (add_user_command "u1" none (baseWorld [] [])).w) = true ∧
    (fileClients (add_user_command "u1" none
        (add_user_command "u1" none (baseWorld [] [])).w).w.file).countP
      (fun cl => cl.id == "u1") = 1 :=
  C8_theorem (baseWorld [] []) (mkCfg []) (vlessInb []) "u1" none
    (by rfl) (by rfl) (by rfl) (by rfl) (by rfl) (by rfl) (by rfl) (by rfl)

/-! ## Claim C9 — durable write before registry mutation -/

lemma C9_add (w : World) (u : String) (email : Option String) :
    mutationsPrecededBySave false (add_user_via_api u email w).tr = true ∧
    errKeepsCache w (add_user_via_api u email w) := by
  rcases hres : (load_xray_config w).res with e | c
  · simp [add_user_via_api, hres, load_no_mutations, load_cache_eq,
      errKeepsCache]
  · rcases hfv : findVless c with _ | vi
    · simp [add_user_via_api, hres, hfv, load_no_mutations, errKeepsCache]
    · cases hhave : clientIdsHave vi.clients u with
      | true =>
        simp [add_user_via_api, hres, hfv, hhave, load_no_mutations,
          errKeepsCache]
      | false =>
        by_cases hga : (load_xray_config w).w.env.grpcAvailable = true
        · by_cases hok : (load_xray_config w).w.env.grpcAddOk = true
          · rcases save_cases (setVlessClients c
                (dropConflicting (dropConflicting vi.clients
                      (emailToUse email u) u) (emailToUse email u) u ++
                  [mkNewClient u (emailToUse email u)]))
                (load_xray_config w).w with hs | hs | hs <;>
              simp [add_user_via_api, hres, hfv, hhave, hga, hok, hs,
                mutations_append, load_no_mutations, load_cache_eq,
                mutationsPrecededBySave, cacheAdd, errKeepsCache]
          · rcases save_cases (setVlessClients c
                (dropConflicting (dropConflicting vi.clients
                      (emailToUse email u) u) (emailToUse email u) u ++
                  [mkNewClient u (emailToUse email u)]))
                (load_xray_config w).w with hs | hs | hs <;>
              simp [add_user_via_api, fallbackAdd, hres, hfv, hhave, hga,
                Bool.eq_false_iff.mpr hok, hs, mutations_append,
                load_no_mutations, load_cache_eq, mutationsPrecededBySave,
                cacheAdd, errKeepsCache]
        · rcases save_cases (setVlessClients c
              (dropConflicting (dropConflicting vi.clients
                    (emailToUse email u) u) (emailToUse email u) u ++
                [mkNewClient u (emailToUse email u)]))
              (load_xray_config w).w with hs | hs | hs <;>
            simp [add_user_via_api, fallbackAdd, hres, hfv, hhave,
              Bool.eq_false_iff.mpr hga, hs, mutations_append,
              load_no_mutations, load_cache_eq, mutationsPrecededBySave,
              cacheAdd, errKeepsCache]

lemma C9_remove (w : World) (u : String) :
    mutationsPrecededBySave false (remove_user_via_api u w).tr = true ∧
    errKeepsCache w (remove_user_via_api u w) := by
  rcases hres : (load_xray_config w).res with e | c
  · simp [remove_user_via_api, hres, load_no_mutations, load_cache_eq,
      errKeepsCache]
  · rcases hfv : findVless c with _ | vi
    · simp [remove_user_via_api, hres, hfv, load_no_mutations, errKeepsCache]
    · rcases hcl : vi.clients.find? (fun cl => cl.id == u) with _ | cl
      · simp [remove_user_via_api, hres, hfv, hcl, load_no_mutations,
          errKeepsCache]
      · have hsc := save_cases (setVlessClients c
          (vi.clients.filter (fun cl2 => cl2.id != u))) (load_xray_config w).w
        rcases hem : cl.email with _ | em
        · rcases hsc with hs | hs | hs <;>
            simp [remove_user_via_api, fallbackRemove, hres, hfv, hcl, hem,
              hs, mutations_append, load_no_mutations, load_cache_eq,
              mutationsPrecededBySave, cacheRemove, errKeepsCache]
        · by_cases he : (em != "") = true
          · by_cases hga : (load_xray_config w).w.env.grpcAvailable = true
            · by_cases hrm : (load_xray_config w).w.env.grpcRemoveOk = true
              · rcases hsc with hs | hs | hs <;>
                  simp [remove_user_via_api, fallbackRemove, hres, hfv, hcl,
                    hem, he, hga, hrm, hs, mutations_append,
                    load_no_mutations, load_cache_eq, mutationsPrecededBySave,
                    cacheRemove, errKeepsCache]
              · rcases hsc with hs | hs | hs <;>
                  simp [remove_user_via_api, fallbackRemove, hres, hfv, hcl,
                    hem, he, hga, Bool.eq_false_iff.mpr hrm, hs,
                    mutations_append, load_no_mutations, load_cache_eq,
                    mutationsPrecededBySave, cacheRemove, errKeepsCache]
            · rcases hsc with hs | hs | hs <;>
                simp [remove_user_via_api, fallbackRemove, hres, hfv, hcl,
                  hem, he, Bool.eq_false_iff.mpr hga, hs, mutations_append,
                  load_no_mutations, load_cache_eq, mutationsPrecededBySave,
                  cacheRemove, errKeepsCache]
          · rcases hsc with hs | hs | hs <;>
              simp [remove_user_via_api, fallbackRemove, hres, hfv, hcl, hem,
                Bool.eq_false_iff.mpr he, hs, mutations_append,
                load_no_mutations, load_cache_eq, mutationsPrecededBySave,
                cacheRemove, errKeepsCache]

lemma C9_regen (w : World) (oldU newU : String) (email : Option String) :
    mutationsPrecededBySave false
      (regenerate_user_via_api oldU newU email w).tr = true ∧
    errKeepsCache w (regenerate_user_via_api oldU newU email w) := by
  rcases hres : (load_xray_config w).res with e | c
  · simp [regenerate_user_via_api, hres, load_no_mutations, load_cache_eq,
      errKeepsCache]
  · rcases hfv : findVless c with _ | vi
    · simp [regenerate_user_via_api, hres, hfv, load_no_mutations,
        errKeepsCache]
    · rcases save_cases (setVlessClients c
          (vi.clients.filter (fun cl => cl.id != oldU) ++
            [mkNewClient newU (emailToUse email newU)]))
          (load_xray_config w).w with hs | hs | hs <;>
        simp [regenerate_user_via_api, update_inbound_via_api, hres, hfv, hs,
          mutations_append, load_no_mutations, load_cache_eq,
          mutationsPrecededBySave, cacheRemove, cacheAdd, errKeepsCache]

/-- C9: across all environments and worlds, in each of the three
operations every registry mutation event is preceded in the trace by a
durable config write, and an operation that ends in a propagating
exception leaves the registry exactly as it was. -/
theorem C9_theorem (w : World) (u oldU newU : String)
    (email : Option String) :
    mutationsPrecededBySave false (add_user_via_api u email w).tr = true ∧
    errKeepsCache w (add_user_via_api u email w) ∧
    mutationsPrecededBySave false (remove_user_via_api u w).tr = true ∧
    errKeepsCache w (remove_user_via_api u w) ∧
    mutationsPrecededBySave false
      (regenerate_user_via_api oldU newU email w).tr = true ∧
    errKeepsCache w (regenerate_user_via_api oldU newU email w) :=
  ⟨(C9_add w u email).1, (C9_add w u email).2, (C9_remove w u).1,
   (C9_remove w u).2, (C9_regen w oldU newU email).1,
   (C9_regen w oldU newU email).2⟩

end XrayAgent
